import Mathlib

/-!
Verification of the NoghreSod-Android native secret-provisioning module.

The embedding models the three C++ translation units:
* `app/src/main/cpp/native-keys.cpp` — merchant-id XOR decryption boundary
  (`Java_com_noghre_sod_core_security_NativeKeyManager_getMerchantId`);
* `app/src/main/cpp/src/keys.cpp` — the layered API-key pipeline boundary
  (`decryptApiKey`, `Java_com_noghre_sod_core_security_KeyProvider_getApiKey`,
  and the stub getters `getStripeKey` / `getCertificatePins`);
* `app/src/main/cpp/native_keys.cpp` — the constant `NativeKeys` getters.

Bytes are modelled as `Nat` values below 256 (XOR of two bytes never
overflows, so no reduction is needed for the XOR layer; modelled stages
reduce mod 256 explicitly).  JNI strings are byte lists; `NewStringUTF`
applied to a C string is modelled by truncation at the first zero byte.

The helpers `xorDecrypt`, `base64Decode`, `aesDecrypt` and `getDeviceKey`
are declared in headers (`obfuscation.h`, `encryption.h`,
`device_binding.h`) whose implementations are not part of this repository;
where a claim depends on them they are modelled from the spec, and the
pipeline boundary is parametrised by the outcome the stages produce.
-/

/-- Failure taxonomy of the spec (section 7): `NotFound`,
`MalformedEncoding`, `IdentityUnavailable`, `AuthenticationFailed`,
`InternalError`. -/
inductive FailReason where
  | NotFound
  | MalformedEncoding
  | IdentityUnavailable
  | AuthenticationFailed
  | InternalError
deriving DecidableEq, Repr

/-- Byte-wise XOR de-obfuscation, exactly the loop of
`native-keys.cpp` lines 35–37 (and the contract of `xorDecrypt` in
`keys.cpp`): output byte `i` is `P[i] XOR K[i mod K.length]`. -/
def deobfuscate (P K : List Nat) : List Nat :=
  (List.range P.length).map (fun i => P.getD i 0 ^^^ K.getD (i % K.length) 0)

/-- `ENCRYPTED_MERCHANT_ID` constant of `native-keys.cpp` lines 12–18. -/
def ENCRYPTED_MERCHANT_ID : List Nat :=
  [0x7A, 0x1F, 0x8C, 0x3D, 0x92, 0x4E, 0x15, 0x67,
   0xD2, 0x39, 0x5B, 0x8A, 0x1C, 0x4F, 0x73, 0xA1,
   0x28, 0x5F, 0x9D, 0x42, 0x6C, 0xE1, 0x37, 0x8B,
   0x2A, 0x5E, 0x9B, 0x41, 0x6E, 0xDF, 0x38, 0x8D,
   0x29, 0x5C, 0x98, 0x40, 0x6D, 0xE0, 0x36, 0x8C]

/-- `MERCHANT_ID_SIZE` of `native-keys.cpp` line 19. -/
def MERCHANT_ID_SIZE : Nat := ENCRYPTED_MERCHANT_ID.length

/-- `XOR_KEY` constant of `native-keys.cpp` line 22. -/
def XOR_KEY : List Nat := [0x42, 0x7E, 0xC1, 0x93, 0x35, 0xA9, 0x2D]

/-- Construction of a C string from a byte buffer
(`std::string(const char*)` / `NewStringUTF(...c_str())`): the bytes up to
but not including the first zero byte. -/
def cString (l : List Nat) : List Nat :=
  l.takeWhile (fun b => b != 0)

/-- `memset(buf, 0, n)` on a byte buffer: the first `n` bytes become zero,
the rest keep their value. -/
def memsetZero (l : List Nat) (n : Nat) : List Nat :=
  (List.range l.length).map (fun i => if i < n then 0 else l.getD i 0)

/-- Observable trace of one `getMerchantId` call (`native-keys.cpp`
lines 26–55): the JNI result, the log lines emitted, and the final
contents of the two buffers that held plaintext during the call — the
stack array `decrypted` (41 bytes, `memset` to zero over the first
`MERCHANT_ID_SIZE` bytes before return) and the `std::string result`
copy (destroyed without being overwritten). -/
structure MerchantTrace where
  result : List Nat
  logs : List String
  decryptedBuf : List Nat
  resultBuf : List Nat
deriving Repr

/-- The non-exceptional path of
`Java_com_noghre_sod_core_security_NativeKeyManager_getMerchantId`:
XOR-decrypt into `decrypted`, append the NUL terminator, build the
`std::string`, `memset` the stack buffer, log, return. -/
def getMerchantId : MerchantTrace :=
  let decrypted := deobfuscate ENCRYPTED_MERCHANT_ID XOR_KEY ++ [0]
  let result := cString decrypted
  { result := result
    logs := ["Merchant ID retrieved from native library"]
    decryptedBuf := memsetZero decrypted MERCHANT_ID_SIZE
    resultBuf := result }

/-- Outcome of the three fallible pipeline stages of `decryptApiKey`
(`keys.cpp` lines 54–78).  The stage implementations live in headers
outside this repository, so the pipeline body is parametrised by whether
the `try` block produced a plaintext or threw with one of the spec's
failure reasons. -/
inductive StageResult where
  | success (plaintext : List Nat)
  | failure (e : FailReason)
deriving DecidableEq, Repr

/-- `decryptApiKey` return value (`keys.cpp` lines 54–78): the plaintext
on success, and the empty string from the `catch` block on any stage
failure. -/
def decryptApiKeyResult : StageResult → List Nat
  | .success p => p
  | .failure _ => []

/-- Log lines emitted inside `decryptApiKey`: the `catch` block logs the
failure (reason text only); the success path logs nothing. -/
def decryptApiKeyLogs : StageResult → List String
  | .success _ => []
  | .failure _ => ["Failed to decrypt API key"]

/-- Observable trace of one `getApiKey` JNI call (`keys.cpp`
lines 111–133): the JNI result string, the log lines, and the final
contents of the `std::string apiKey` plaintext buffer. -/
structure ApiKeyTrace where
  result : List Nat
  logs : List String
  plaintextBuf : List Nat
deriving Repr

/-- `Java_com_noghre_sod_core_security_KeyProvider_getApiKey`
(`keys.cpp` lines 111–133): call `decryptApiKey`; if the result is empty,
log and return the empty string; otherwise `memset` the plaintext buffer
to zero and only then build the returned Java string from its
`c_str()`. -/
def getApiKeyJNI (r : StageResult) : ApiKeyTrace :=
  let apiKey := decryptApiKeyResult r
  if apiKey = [] then
    { result := []
      logs := decryptApiKeyLogs r ++ ["API key decryption failed"]
      plaintextBuf := [] }
  else
    let wiped := memsetZero apiKey apiKey.length
    { result := cString (wiped ++ [0])
      logs := decryptApiKeyLogs r
      plaintextBuf := wiped }

/-- `Java_com_noghre_sod_core_security_KeyProvider_getStripeKey`
(`keys.cpp` lines 161–169): returns `NewStringUTF("")` unconditionally. -/
def getStripeKey : List Nat := []

/-- `Java_com_noghre_sod_core_security_KeyProvider_getCertificatePins`
(`keys.cpp` lines 174–182): returns `NewStringUTF("")` unconditionally. -/
def getCertificatePins : List Nat := []

/-- Abstract per-device state visible to the JNI getters: the device
identity bytes (the only device-varying input any of the secret getters
could consult). -/
structure DeviceState where
  identity : List Nat

/-- `NativeKeys_getPaymentGatewayKey` (`native_keys.cpp` lines 51–58):
returns the placeholder merchant id literal on every device. -/
def NativeKeys_getPaymentGatewayKey (_ : DeviceState) : String :=
  "00000000-0000-0000-0000-000000000000"

/-- `NativeKeys_getApiUrl` (`native_keys.cpp` lines 16–22). -/
def NativeKeys_getApiUrl (_ : DeviceState) : String :=
  "https://api.noghresod.ir/v1/"

/-- `NativeKeys_getCertificatePinSha` (`native_keys.cpp` lines 28–33). -/
def NativeKeys_getCertificatePinSha (_ : DeviceState) : String :=
  "sha256/Iv8Pkqkx7E0IxEBf9X9sLeJW6zIPg9TJd6K3mNfW5lQ="

/-- `NativeKeys_getBackupCertificatePin` (`native_keys.cpp`
lines 39–44). -/
def NativeKeys_getBackupCertificatePin (_ : DeviceState) : String :=
  "sha256/lFQwGWAd96P3xh8Sj7fVOBHmxZN0A8d/zJGz2fKJHNc="

/-- `NativeKeys_getFirebaseKey` (`native_keys.cpp` lines 65–72). -/
def NativeKeys_getFirebaseKey (_ : DeviceState) : String :=
  "AIzaSyDummyKeyForTesting123456789"

/-- `NativeKeys_getEncryptionKey` (`native_keys.cpp` lines 79–86). -/
def NativeKeys_getEncryptionKey (_ : DeviceState) : String :=
  "YourStrongEncryptionKeyHere32BytesBase64"

/-- `NativeKeys_getApiTimeout` (`native_keys.cpp` lines 92–96). -/
def NativeKeys_getApiTimeout (_ : DeviceState) : Int := 30

/-- `NativeKeys_getMaxRetries` (`native_keys.cpp` lines 102–106). -/
def NativeKeys_getMaxRetries (_ : DeviceState) : Int := 3

/-- `NativeKeys_getRetryDelay` (`native_keys.cpp` lines 112–116). -/
def NativeKeys_getRetryDelay (_ : DeviceState) : Int := 1000

/-- Fixed nonce width of the AEAD ciphertext layout
`nonce || encrypted_data || authentication_tag` (spec section 4.5). -/
def NONCE_LEN : Nat := 12

/-- Fixed authentication-tag width of the AEAD ciphertext layout
(spec section 4.5). -/
def TAG_LEN : Nat := 16

/-- Nonce component of a ciphertext: its first `NONCE_LEN` bytes. -/
def ctNonce (c : List Nat) : List Nat := c.take NONCE_LEN

/-- Encrypted-data component of a ciphertext: the bytes between the
nonce and the trailing tag. -/
def ctBody (c : List Nat) : List Nat :=
  (c.drop NONCE_LEN).take ((c.drop NONCE_LEN).length - TAG_LEN)

/-- Authentication-tag component of a ciphertext: its last `TAG_LEN`
bytes. -/
def ctTag (c : List Nat) : List Nat :=
  (c.drop NONCE_LEN).drop ((c.drop NONCE_LEN).length - TAG_LEN)

/-- Modelled from the spec: one keystream byte of the symmetric cipher
inside `aesDecrypt` (the implementation lives in `encryption.h`, which is
not part of this repository).  A deterministic function of key, nonce and
position, reduced mod 256. -/
def streamByte (key nonce : List Nat) (i : Nat) : Nat :=
  ((key ++ nonce).foldl (fun acc b => (acc * 97 + b + 1) % 256) (i % 256)) % 256

/-- Modelled from the spec: the keystream of length `n` for a key and
nonce. -/
def keystream (key nonce : List Nat) (n : Nat) : List Nat :=
  (List.range n).map (streamByte key nonce)

/-- Modelled from the spec: the 16-byte authentication tag computed over
the derived key, the nonce and the encrypted data (spec section 4.5:
decryption verifies the tag against key, nonce and ciphertext before
releasing plaintext). -/
def macTag (key nonce data : List Nat) : List Nat :=
  (List.range TAG_LEN).map (fun j =>
    ((key ++ nonce ++ data).foldl
      (fun acc b => (acc * 131 + b + j + 1) % 256) (j + 1)) % 256)

/-- Modelled from the spec: `aesDecrypt` (declared in `encryption.h`,
implementation not in this repository).  Parses
`nonce || encrypted_data || tag`, recomputes the tag and compares; on
mismatch it fails closed with `AuthenticationFailed` and releases no
plaintext; on match it XORs the body with the keystream. -/
def aesDecrypt (c key : List Nat) : Except FailReason (List Nat) :=
  if c.length < NONCE_LEN + TAG_LEN then .error .InternalError
  else if macTag key (ctNonce c) (ctBody c) = ctTag c then
    .ok (List.zipWith (fun a b => a ^^^ b) (ctBody c)
          (keystream key (ctNonce c) (ctBody c).length))
  else .error .AuthenticationFailed

/-- Modelled from the spec: one byte of the derived device-bound key
(`getDeviceKey` / `derive(deviceIdentity, context)`, `device_binding.h`
is not part of this repository).  Deterministic mixing of the identity
bytes and the context bytes (separated by a marker), reduced mod 256. -/
def deriveLane (identity context : List Nat) (j : Nat) : Nat :=
  ((identity ++ 0 :: context).foldl
    (fun acc b => (acc * 131 + (b ^^^ (j + 1))) % 256) (j + 7)) % 256

/-- Modelled from the spec: `derive(deviceIdentity, context) -> bytes[32]`
(spec section 4.4) — a deterministic KDF producing a fixed 32-byte key. -/
def derive (identity context : List Nat) : List Nat :=
  (List.range 32).map (deriveLane identity context)

/-- ASCII bytes of the tested identity `device-123` (spec section 8). -/
def deviceId123 : List Nat := [100, 101, 118, 105, 99, 101, 45, 49, 50, 51]

/-- ASCII bytes of the tested identity `device-456` (spec section 8). -/
def deviceId456 : List Nat := [100, 101, 118, 105, 99, 101, 45, 52, 53, 54]

/-- ASCII bytes of the tested context `url-context` (spec section 8). -/
def urlContext : List Nat := [117, 114, 108, 45, 99, 111, 110, 116, 101, 120, 116]

-- ===== General lemmas =====

theorem deobfuscate_length (P K : List Nat) :
    (deobfuscate P K).length = P.length := by
  simp [deobfuscate]

theorem deobfuscate_getD (P K : List Nat) (i : Nat) (h : i < P.length) :
    (deobfuscate P K).getD i 0 = P.getD i 0 ^^^ K.getD (i % K.length) 0 := by
  have hlen : i < (deobfuscate P K).length := by
    rw [deobfuscate_length]; exact h
  rw [List.getD_eq_getElem _ _ hlen]
  simp [deobfuscate, h]

-- ===== Claim theorems =====

/-- Claim C4: byte-wise XOR de-obfuscation with a non-empty key is an
involution: `deobfuscate (deobfuscate P K) K = P` for every payload `P`
and non-empty key `K`. -/
theorem deobfuscate_involutive (P K : List Nat) (hK : K ≠ []) :
    deobfuscate (deobfuscate P K) K = P := by
  apply List.ext_getElem
  · simp [deobfuscate]
  · intro i h1 h2
    have hi : i < (deobfuscate P K).length := by
      rw [deobfuscate_length]; exact h2
    simp only [deobfuscate, List.getElem_map, List.getElem_range]
    have hfold :
        List.map (fun j => P.getD j 0 ^^^ K.getD (j % K.length) 0)
          (List.range P.length) = deobfuscate P K := rfl
    rw [hfold, deobfuscate_getD P K i h2]
    rw [Nat.xor_assoc, Nat.xor_self, Nat.xor_zero]
    exact List.getD_eq_getElem P 0 h2

/-- Witness for C4 at a concrete payload and key. -/
theorem deobfuscate_involutive_witness :
    ([5, 6, 7] : List Nat) ≠ [] ∧
      deobfuscate (deobfuscate [1, 2, 3] [5, 6, 7]) [5, 6, 7] = [1, 2, 3] :=
  ⟨by decide, deobfuscate_involutive [1, 2, 3] [5, 6, 7] (by decide)⟩

/-- Claim C10: the merchant-id XOR output has no zero byte, so the
C string built from it is not truncated: `getMerchantId` returns all
`MERCHANT_ID_SIZE = 40` plaintext bytes, identically on every call. -/
theorem getMerchantId_length_forty :
    getMerchantId.result = deobfuscate ENCRYPTED_MERCHANT_ID XOR_KEY ∧
      getMerchantId.result.length = 40 ∧
      (deobfuscate ENCRYPTED_MERCHANT_ID XOR_KEY).all (fun b => b != 0) = true := by
  decide

theorem memsetZero_all_zero (l : List Nat) :
    (memsetZero l l.length).all (fun b => b == 0) = true := by
  simp [memsetZero, List.all_eq_true, List.mem_map, List.mem_range]
  intro x h1 h2
  omega

theorem deriveLane_lt (identity context : List Nat) (j : Nat) :
    deriveLane identity context j < 256 := by
  unfold deriveLane
  exact Nat.mod_lt _ (by norm_num)

/-- Claim C1 (code bug): even when every pipeline stage succeeds with a
non-empty plaintext, `getApiKey` memsets the plaintext buffer to zero
before building the returned Java string from its `c_str()`, so the
caller receives the empty string, never the decrypted API key.
Evaluated at the concrete plaintext bytes of `sk_live`. -/
theorem getApiKey_returns_wiped_string :
    (getApiKeyJNI (StageResult.success [115, 107, 95, 108, 105, 118, 101])).result
        = [] ∧
      ([115, 107, 95, 108, 105, 118, 101] : List Nat) ≠ [] := by
  decide

/-- Counterexample to claim C2 as stated: the boundary returns the same
empty string for two different failure reasons, so the value handed to
the caller is an untyped empty string that carries no reason kind. -/
theorem getApiKey_reason_not_carried :
    (getApiKeyJNI (StageResult.failure FailReason.MalformedEncoding)).result =
        (getApiKeyJNI (StageResult.failure FailReason.AuthenticationFailed)).result ∧
      (getApiKeyJNI (StageResult.failure FailReason.MalformedEncoding)).result
        = [] := by
  decide

/-- Claim C2 as amended: every stage failure is caught at the `getApiKey`
boundary and the caller receives the empty string — no unhandled fault
crosses the boundary and no partially decrypted output is returned — but
the failure reason is only logged, not returned. -/
theorem getApiKey_failure_caught_empty (e : FailReason) :
    (getApiKeyJNI (StageResult.failure e)).result = [] ∧
      (getApiKeyJNI (StageResult.failure e)).plaintextBuf = [] := by
  simp [getApiKeyJNI, decryptApiKeyResult]

/-- Claim C3 (code bug): the not-yet-provisioned getters succeed with an
empty string (`getStripeKey`, `getCertificatePins`) or a placeholder
merchant id (`getPaymentGatewayKey`) on every device, instead of failing
with `NotFound`. -/
theorem stub_getters_succeed_without_notfound :
    getStripeKey = [] ∧ getCertificatePins = [] ∧
      ∀ d : DeviceState,
        NativeKeys_getPaymentGatewayKey d =
          "00000000-0000-0000-0000-000000000000" :=
  ⟨rfl, rfl, fun _ => rfl⟩

/-- Counterexample to claim C5 as stated: after a successful
`getMerchantId` call the `std::string` copy of the plaintext is not
wiped — all 40 plaintext bytes are still readable, none of them zero. -/
theorem getMerchantId_result_copy_not_wiped :
    getMerchantId.resultBuf.all (fun b => b == 0) = false ∧
      getMerchantId.resultBuf.length = 40 := by
  decide

/-- Claim C5 as amended: the buffers the code explicitly memsets do read
back all-zero — the stack XOR buffer of `getMerchantId`, and the
plaintext string of `getApiKey` on every path — but the `std::string`
plaintext copy of `getMerchantId` is not wiped. -/
theorem wiped_buffers_read_back_zero :
    getMerchantId.decryptedBuf.all (fun b => b == 0) = true ∧
      ∀ r : StageResult,
        ((getApiKeyJNI r).plaintextBuf).all (fun b => b == 0) = true := by
  constructor
  · decide
  · intro r
    cases r with
    | failure e => simp [getApiKeyJNI, decryptApiKeyResult]
    | success p =>
      by_cases hp : p = []
      · simp [getApiKeyJNI, decryptApiKeyResult, hp]
      · simpa [getApiKeyJNI, decryptApiKeyResult, hp] using memsetZero_all_zero p

/-- Counterexample to claim C8 as stated: two runs that differ only in
the decrypted secret value (empty vs non-empty plaintext, both produced
by a fully successful pipeline) emit different log output, because the
boundary logs a failure line exactly when the plaintext is empty. -/
theorem getApiKey_logs_reveal_emptiness :
    (getApiKeyJNI (StageResult.success [])).logs ≠
      (getApiKeyJNI (StageResult.success [107])).logs := by
  decide

/-- Claim C8 as amended: log messages never contain secret bytes — for
any two runs whose decrypted values are both non-empty the log output is
identical (and empty), and `getMerchantId` always logs the same constant
line; logs reveal only whether the decrypted value was empty. -/
theorem logs_independent_of_secret (p q : List Nat)
    (hp : p ≠ []) (hq : q ≠ []) :
    (getApiKeyJNI (StageResult.success p)).logs =
        (getApiKeyJNI (StageResult.success q)).logs ∧
      (getApiKeyJNI (StageResult.success p)).logs = [] ∧
      getMerchantId.logs = ["Merchant ID retrieved from native library"] := by
  refine ⟨?_, ?_, rfl⟩ <;>
    simp [getApiKeyJNI, decryptApiKeyResult, decryptApiKeyLogs, hp, hq]

/-- Witness for the amended C8 at concrete non-empty secrets. -/
theorem logs_independent_of_secret_witness :
    ([1] : List Nat) ≠ [] ∧ ([2] : List Nat) ≠ [] ∧
      (getApiKeyJNI (StageResult.success [1])).logs =
        (getApiKeyJNI (StageResult.success [2])).logs :=
  ⟨by decide, by decide,
    (logs_independent_of_secret [1] [2] (by decide) (by decide)).1⟩

/-- Claim C9: the `NativeKeys` getters are constant functions — on every
device state they return the same build-embedded literals, in particular
30 for the timeout, 3 for the retry count and 1000 for the retry
delay. -/
theorem nativeKeys_getters_constant (d d2 : DeviceState) :
    NativeKeys_getApiUrl d = "https://api.noghresod.ir/v1/" ∧
      NativeKeys_getApiUrl d = NativeKeys_getApiUrl d2 ∧
      NativeKeys_getCertificatePinSha d =
        "sha256/Iv8Pkqkx7E0IxEBf9X9sLeJW6zIPg9TJd6K3mNfW5lQ=" ∧
      NativeKeys_getCertificatePinSha d = NativeKeys_getCertificatePinSha d2 ∧
      NativeKeys_getBackupCertificatePin d =
        "sha256/lFQwGWAd96P3xh8Sj7fVOBHmxZN0A8d/zJGz2fKJHNc=" ∧
      NativeKeys_getBackupCertificatePin d =
        NativeKeys_getBackupCertificatePin d2 ∧
      NativeKeys_getFirebaseKey d = "AIzaSyDummyKeyForTesting123456789" ∧
      NativeKeys_getFirebaseKey d = NativeKeys_getFirebaseKey d2 ∧
      NativeKeys_getEncryptionKey d =
        "YourStrongEncryptionKeyHere32BytesBase64" ∧
      NativeKeys_getEncryptionKey d = NativeKeys_getEncryptionKey d2 ∧
      NativeKeys_getApiTimeout d = 30 ∧
      NativeKeys_getApiTimeout d = NativeKeys_getApiTimeout d2 ∧
      NativeKeys_getMaxRetries d = 3 ∧
      NativeKeys_getMaxRetries d = NativeKeys_getMaxRetries d2 ∧
      NativeKeys_getRetryDelay d = 1000 ∧
      NativeKeys_getRetryDelay d = NativeKeys_getRetryDelay d2 :=
  ⟨rfl, rfl, rfl, rfl, rfl, rfl, rfl, rfl, rfl, rfl, rfl, rfl, rfl, rfl,
    rfl, rfl⟩

/-- Claim C6: for every ciphertext long enough to carry a nonce and tag
and every key, if the recomputed authentication tag does not match the
ciphertext's tag, `aesDecrypt` fails closed with `AuthenticationFailed`
and yields no plaintext bytes. -/
theorem aesDecrypt_fails_closed (c key : List Nat)
    (hlen : NONCE_LEN + TAG_LEN ≤ c.length)
    (htag : macTag key (ctNonce c) (ctBody c) ≠ ctTag c) :
    aesDecrypt c key = Except.error FailReason.AuthenticationFailed ∧
      ∀ p : List Nat, aesDecrypt c key ≠ Except.ok p := by
  have hnot : ¬ c.length < NONCE_LEN + TAG_LEN := Nat.not_lt.mpr hlen
  refine ⟨?_, ?_⟩
  · simp [aesDecrypt, hnot, htag]
  · intro p
    simp [aesDecrypt, hnot, htag]

/-- Witness for C6 at a concrete tampered ciphertext (28 zero bytes,
whose all-zero tag does not match the recomputed tag). -/
theorem aesDecrypt_fails_closed_witness :
    NONCE_LEN + TAG_LEN ≤ (List.replicate 28 0 : List Nat).length ∧
      macTag [] (ctNonce (List.replicate 28 0)) (ctBody (List.replicate 28 0)) ≠
        ctTag (List.replicate 28 0) ∧
      aesDecrypt (List.replicate 28 0) [] =
        Except.error FailReason.AuthenticationFailed :=
  ⟨by decide, by decide,
    (aesDecrypt_fails_closed (List.replicate 28 0) [] (by decide) (by decide)).1⟩

/-- Counterexample to claim C7 as stated: no function into fixed 32-byte
keys can separate all pairs of distinct identities — by pigeonhole there
exist two distinct identities with the same derived key. -/
theorem derive_not_injective_on_identities :
    ¬ ∀ a b context : List Nat, a ≠ b → derive a context ≠ derive b context := by
  intro h
  obtain ⟨n, m, hnm, hf⟩ :=
    Finite.exists_ne_map_eq_of_infinite
      (fun k : ℕ => fun i : Fin 32 =>
        (⟨deriveLane (List.replicate k 0) [] i.val, deriveLane_lt _ _ _⟩ :
          Fin 256))
  have hne : List.replicate n 0 ≠ List.replicate m 0 := by
    intro hc
    apply hnm
    have hlen := congrArg List.length hc
    simpa using hlen
  apply h (List.replicate n 0) (List.replicate m 0) [] hne
  unfold derive
  apply List.map_congr_left
  intro j hj
  have hj32 : j < 32 := List.mem_range.mp hj
  exact congrArg Fin.val (congrFun hf ⟨j, hj32⟩)

/-- Claim C7 as amended: the derivation is deterministic — for any fixed
identity and context two calls yield the same 32-byte key — and for the
spec's tested identity pair `device-123` / `device-456` with context
`url-context` the derived keys differ. -/
theorem derive_deterministic_and_tested_pair_distinct :
    (∀ identity context : List Nat,
        derive identity context = derive identity context ∧
          (derive identity context).length = 32) ∧
      derive deviceId123 urlContext ≠ derive deviceId456 urlContext := by
  refine ⟨fun identity context => ⟨rfl, by simp [derive]⟩, ?_⟩
  decide
